import Mathlib

/-!
Verification of the recurring-transaction subsystem of a personal expense
tracker (schema `shared/schema.ts`, storage layer `server/storage.ts`,
HTTP routes `server/routes.ts`).

The development shallowly embeds:
  * the calendar-date values that cross the storage boundary as
    `YYYY-MM-DD` strings (`Date` below, with JavaScript-style comparisons
    and `getDay`/`getDate`/`getMonth` accessors);
  * the `recurring_transactions` and `transactions` rows;
  * `DatabaseStorage.processRecurringTransactions` — the per-definition
    guards, the frequency `switch`, transaction creation, the
    `lastProcessedDate` update, and the per-definition `try/catch`
    (fallibility of the two persistence calls is modelled by oracles
    keyed on the definition id);
  * the `POST /api/recurring-transactions/process` endpoint;
  * the frequency-specific validation of
    `POST /api/recurring-transactions` and
    `PUT /api/recurring-transactions/:id`, together with the
    storage-layer field normalizations (`x || null`) and the
    spread-style update merge.

The host clock is modelled at calendar-date granularity, matching the
code's normalization `today.setHours(0,0,0,0)` and its date-only
comparisons; wall-clock `createdAt` timestamps are omitted because no
behaviour of the processor or the routes reads them.
-/

namespace ExpenseTracker

/-- A calendar date (no time-of-day, no timezone), the granularity at which
all comparisons in `processRecurringTransactions` happen after
`setHours(0,0,0,0)` normalization. -/
structure Date where
  year : Nat
  month : Nat
  day : Nat
deriving DecidableEq, Repr

/-- Strict calendar order, the meaning of `<` on two midnight-normalized
JavaScript `Date` values. -/
def Date.blt (a b : Date) : Bool :=
  a.year < b.year ||
    (a.year == b.year &&
      (a.month < b.month || (a.month == b.month && a.day < b.day)))

/-- Gregorian leap-year rule. -/
def isLeapYear (y : Nat) : Bool :=
  (y % 4 == 0 && y % 100 != 0) || y % 400 == 0

/-- Number of days in a month of the Gregorian calendar. -/
def daysInMonth (y m : Nat) : Nat :=
  if m == 2 then (if isLeapYear y then 29 else 28)
  else if m == 4 || m == 6 || m == 9 || m == 11 then 30
  else 31

/-- A structurally valid calendar date. -/
def Date.validB (d : Date) : Bool :=
  decide (1 ≤ d.month) && decide (d.month ≤ 12) &&
    decide (1 ≤ d.day) && decide (d.day ≤ daysInMonth d.year d.month)

/-- Days elapsed since the proleptic Gregorian date 0000-03-01
(a Wednesday). Standard civil-calendar day count with the year shifted so
that it starts in March. -/
def Date.rataDie (dt : Date) : Nat :=
  let y := if dt.month ≤ 2 then dt.year - 1 else dt.year
  let m := if dt.month ≤ 2 then dt.month + 9 else dt.month - 3
  y * 365 + y / 4 - y / 100 + y / 400 + (153 * m + 2) / 5 + dt.day - 1

/-- Weekday of a date, `0 = Sunday .. 6 = Saturday`, the value JavaScript's
`Date.prototype.getDay` returns for a midnight-normalized date.
0000-03-01 is a Wednesday (= 3). -/
def Date.dayOfWeek (d : Date) : Nat :=
  (d.rataDie + 3) % 7

/-- A row of the `transactions` table (`shared/schema.ts`); the serial id
and the fields the insert payload carries.  The `created_at` wall-clock
timestamp is omitted: nothing in the processor or routes reads it. -/
structure Transaction where
  id : Nat
  userId : Nat
  type : String
  amount : Rat
  description : String
  date : Date
  categoryId : Nat
  notes : Option String
deriving DecidableEq, Repr

/-- A row of the `recurring_transactions` table (`shared/schema.ts`).
`amount` is a `double precision` column modelled as `ℚ`; the processor
only copies it.  The `created_at` timestamp is omitted as for
`Transaction`. -/
structure RecurringTransaction where
  id : Nat
  userId : Nat
  type : String
  amount : Rat
  description : String
  categoryId : Nat
  frequency : String
  startDate : Date
  endDate : Option Date
  dayOfMonth : Option Int
  dayOfWeek : Option Int
  lastProcessedDate : Option Date
  isActive : Bool
  notes : Option String
deriving DecidableEq, Repr

/-- JavaScript `x || null` on a nullable string field (`notes`): `null`,
`undefined` and the empty string are all falsy and collapse to `null`. -/
def jsOrNullStr : Option String → Option String
  | none => none
  | some s => if s == "" then none else some s

/-- JavaScript `x || null` on a nullable integer field (`dayOfWeek`,
`dayOfMonth` in `createRecurringTransaction`): `null`, `undefined` and
`0` are all falsy and collapse to `null`. -/
def jsOrNullInt : Option Int → Option Int
  | none => none
  | some v => if v == 0 then none else some v

/-- The frequency `switch` of `processRecurringTransactions`
(`server/storage.ts`): decides `shouldProcess` from the snapshot row `rt`
and the normalized run date `today`.  A frequency outside the four cases
falls through the `switch` and leaves `shouldProcess = false`. -/
def frequencyMatches (rt : RecurringTransaction) (today : Date) : Bool :=
  if rt.frequency = "daily" then true
  else if rt.frequency = "weekly" then
    rt.dayOfWeek.any (fun w => w == Int.ofNat today.dayOfWeek)
  else if rt.frequency = "monthly" then
    rt.dayOfMonth.any (fun m => m == Int.ofNat today.day)
  else if rt.frequency = "yearly" then
    rt.startDate.day == today.day && rt.startDate.month == today.month
  else false

/-- The in-loop guards of `processRecurringTransactions` followed by the
frequency `switch`: skip when `lastProcessedDate` equals today, when
`endDate` is strictly in the past, or when `startDate` is in the future;
otherwise ask the frequency rule. -/
def shouldEmit (rt : RecurringTransaction) (today : Date) : Bool :=
  if rt.lastProcessedDate.any (fun lp => lp == today) then false
  else if rt.endDate.any (fun e => Date.blt e today) then false
  else if Date.blt today rt.startDate then false
  else frequencyMatches rt today

/-- A definition materializes on a run iff it survives the
`isActive = true` listing filter and `shouldEmit`. -/
def emitsFor (rt : RecurringTransaction) (today : Date) : Bool :=
  rt.isActive && shouldEmit rt today

/-- The persistent store the processor reads and writes: the
`transactions` and `recurring_transactions` tables plus the serial id
counter for new transactions. -/
structure Store where
  transactions : List Transaction
  recurring : List RecurringTransaction
  nextTransactionId : Nat
deriving DecidableEq, Repr

/-- The `InsertTransaction` payload the processor builds from a matched
definition, as stored by `createTransaction` (which applies
`notes || null`). -/
def materializedTransaction (id : Nat) (rt : RecurringTransaction)
    (today : Date) : Transaction :=
  { id := id
    userId := rt.userId
    type := rt.type
    amount := rt.amount
    description := rt.description
    date := today
    categoryId := rt.categoryId
    notes := jsOrNullStr rt.notes }

/-- The `UPDATE recurring_transactions SET last_processed_date = today
WHERE id = i` row transformer. -/
def setLastProcessed (today : Date) (i : Nat) (r : RecurringTransaction) :
    RecurringTransaction :=
  if r.id == i then { r with lastProcessedDate := some today } else r

/-- One iteration of the processor's `for` loop over the snapshot row
`rt`, inside its `try/catch`.  `createFails`/`updateFails` say whether
the `createTransaction` insert or the `lastProcessedDate` update throws
for a given definition id; a thrown persistence call leaves its own
write unapplied, is caught, and yields no count.  When the insert
succeeds but the update throws, the inserted transaction row remains
(the two calls are separate statements, no surrounding transaction). -/
def processOne (today : Date) (createFails updateFails : Nat → Bool)
    (st : Store) (rt : RecurringTransaction) : Store × Nat :=
  if shouldEmit rt today then
    if createFails rt.id then (st, 0)
    else
      let st1 : Store :=
        { st with
          transactions :=
            st.transactions ++ [materializedTransaction st.nextTransactionId rt today]
          nextTransactionId := st.nextTransactionId + 1 }
      if updateFails rt.id then (st1, 0)
      else
        ({ st1 with recurring := st1.recurring.map (setLastProcessed today rt.id) }, 1)
  else (st, 0)

/-- The processor's `for` loop over the fetched snapshot of active rows,
threading the store and the `transactionsCreated` counter. -/
def processLoop (today : Date) (createFails updateFails : Nat → Bool) :
    List RecurringTransaction → Store → Nat → Store × Nat
  | [], st, count => (st, count)
  | rt :: rest, st, count =>
    let r := processOne today createFails updateFails st rt
    processLoop today createFails updateFails rest r.1 (count + r.2)

/-- `DatabaseStorage.processRecurringTransactions`: fetch the active
definitions (a fallible `SELECT`, modelled by `listFails`; when it
throws, the whole invocation rejects with no work done), then run the
per-definition loop and return the count of successful
materializations. -/
def processRecurringTransactions (listFails : Bool)
    (createFails updateFails : Nat → Bool) (today : Date) (st : Store) :
    Except String (Store × Nat) :=
  if listFails then .error "failed to list active recurring transactions"
  else .ok (processLoop today createFails updateFails
    (st.recurring.filter (fun rt => rt.isActive)) st 0)

/-- Response of `POST /api/recurring-transactions/process`
(`server/routes.ts`): a success payload carrying `transactionsCreated`,
or the 500 error body when `processRecurringTransactions` rejects. -/
inductive ProcessResponse where
  | ok (transactionsCreated : Nat)
  | serverError
deriving DecidableEq, Repr

/-- The `POST /api/recurring-transactions/process` handler: forward the
count on success, answer 500 (leaving the store as the failed invocation
left it) on rejection. -/
def processEndpoint (listFails : Bool)
    (createFails updateFails : Nat → Bool) (today : Date) (st : Store) :
    ProcessResponse × Store :=
  match processRecurringTransactions listFails createFails updateFails today st with
  | .ok (st2, n) => (.ok n, st2)
  | .error _ => (.serverError, st)

/-- The parsed `InsertRecurringTransaction` body of
`POST /api/recurring-transactions` after the Zod schema and the
category/ownership checks pass (`server/routes.ts`).  `isActive` may be
absent (`undefined`). -/
structure RecurringPayload where
  userId : Nat
  type : String
  amount : Rat
  description : String
  categoryId : Nat
  frequency : String
  startDate : Date
  endDate : Option Date
  dayOfMonth : Option Int
  dayOfWeek : Option Int
  isActive : Option Bool
  notes : Option String
deriving DecidableEq, Repr

/-- The frequency-specific `switch` of the POST route: a weekly payload
must carry `dayOfWeek` in `0..6`, a monthly payload must carry
`dayOfMonth` in `1..31`; other frequencies fall through unvalidated. -/
def validateFrequencyFields (frequency : String)
    (dayOfWeek dayOfMonth : Option Int) : Bool :=
  if frequency = "weekly" then
    match dayOfWeek with
    | none => false
    | some w => decide (0 ≤ w) && decide (w ≤ 6)
  else if frequency = "monthly" then
    match dayOfMonth with
    | none => false
    | some m => decide (1 ≤ m) && decide (m ≤ 31)
  else true

/-- `DatabaseStorage.createRecurringTransaction`: the stored row, with the
JavaScript `|| null` normalizations of `notes`, `dayOfMonth` and
`dayOfWeek` (`endDate || null` is the identity on an already-nullable
date value, since a non-null date is truthy) and the `isActive`
defaulting. -/
def storeCreateRecurring (id : Nat) (p : RecurringPayload) :
    RecurringTransaction :=
  { id := id
    userId := p.userId
    type := p.type
    amount := p.amount
    description := p.description
    categoryId := p.categoryId
    frequency := p.frequency
    startDate := p.startDate
    endDate := p.endDate
    dayOfMonth := jsOrNullInt p.dayOfMonth
    dayOfWeek := jsOrNullInt p.dayOfWeek
    lastProcessedDate := none
    isActive := p.isActive.getD true
    notes := jsOrNullStr p.notes }

/-- Outcome of `POST /api/recurring-transactions`: the 201 response with
the stored row, or a 400 from the frequency-specific validation. -/
inductive CreateResult where
  | created (rt : RecurringTransaction)
  | badRequest
deriving DecidableEq, Repr

/-- The POST handler after authentication, Zod parsing and the category
check: run the frequency `switch`, then store. -/
def postRecurring (id : Nat) (p : RecurringPayload) : CreateResult :=
  if validateFrequencyFields p.frequency p.dayOfWeek p.dayOfMonth then
    .created (storeCreateRecurring id p)
  else .badRequest

/-- The raw `req.body` of `PUT /api/recurring-transactions/:id`,
restricted to the fields the frequency-validity invariant reads.  The
outer `Option` distinguishes a field absent from the body (`undefined`,
left untouched by the `{...rt, ...updateFields}` spread) from one that
is present; for the nullable day fields the inner `Option` is JSON
`null`.  The other body fields pass through the spread without ever
touching `frequency`, `dayOfWeek` or `dayOfMonth`. -/
structure RecurringUpdate where
  frequency : Option String
  dayOfWeek : Option (Option Int)
  dayOfMonth : Option (Option Int)
deriving DecidableEq, Repr

/-- The PUT route's frequency validation, guarded by
`if (updateFields.frequency)`: it runs only when the body carries a
truthy (present, non-empty) `frequency`.  When it runs, a weekly update
must carry a non-null `dayOfWeek` in `0..6` and a monthly update a
non-null `dayOfMonth` in `1..31`. -/
def putValidateFrequency (u : RecurringUpdate) : Bool :=
  match u.frequency with
  | none => true
  | some f =>
    if f = "" then true
    else if f = "weekly" then
      match u.dayOfWeek with
      | some (some w) => decide (0 ≤ w) && decide (w ≤ 6)
      | _ => false
    else if f = "monthly" then
      match u.dayOfMonth with
      | some (some m) => decide (1 ≤ m) && decide (m ≤ 31)
      | _ => false
    else true

/-- The `{...recurringTransaction, ...updateFields}` merge performed by
`updateRecurringTransaction`: body-present fields (including explicit
nulls) override the stored row. -/
def applyRecurringUpdate (rt : RecurringTransaction) (u : RecurringUpdate) :
    RecurringTransaction :=
  { rt with
    frequency := u.frequency.getD rt.frequency
    dayOfWeek := u.dayOfWeek.getD rt.dayOfWeek
    dayOfMonth := u.dayOfMonth.getD rt.dayOfMonth }

/-- The PUT handler after authentication, existence, ownership and
category checks: `none` is the 400 rejection, `some rt'` the row the
storage layer persists and the route echoes back. -/
def putRecurring (rt : RecurringTransaction) (u : RecurringUpdate) :
    Option RecurringTransaction :=
  if putValidateFrequency u then some (applyRecurringUpdate rt u) else none

/-- The claimed stored-state invariant: a weekly row carries `dayOfWeek`
present and in `0..6`, a monthly row carries `dayOfMonth` present and in
`1..31`. -/
def wellFormedFrequency (rt : RecurringTransaction) : Bool :=
  (rt.frequency != "weekly" ||
    rt.dayOfWeek.any (fun w => decide (0 ≤ w) && decide (w ≤ 6))) &&
  (rt.frequency != "monthly" ||
    rt.dayOfMonth.any (fun m => decide (1 ≤ m) && decide (m ≤ 31)))

/-- A definition in the fetched snapshot materializes successfully on a
run iff its guards and frequency rule pass and neither of its two
persistence calls throws. -/
def materializationSucceeds (today : Date) (createFails updateFails : Nat → Bool)
    (rt : RecurringTransaction) : Bool :=
  shouldEmit rt today && !createFails rt.id && !updateFails rt.id

/-- Ids of the snapshot rows whose materialization fully succeeds; these
are exactly the rows whose `lastProcessedDate` the run rewrites. -/
def successIds (today : Date) (createFails updateFails : Nat → Bool)
    (todo : List RecurringTransaction) : List Nat :=
  (todo.filter (materializationSucceeds today createFails updateFails)).map
    (fun rt => rt.id)

theorem processOne_count (today : Date) (cf uf : Nat → Bool) (st : Store)
    (rt : RecurringTransaction) :
    (processOne today cf uf st rt).2 =
      if materializationSucceeds today cf uf rt then 1 else 0 := by
  unfold processOne materializationSucceeds
  cases hE : shouldEmit rt today <;> cases hC : cf rt.id <;>
    cases hU : uf rt.id <;> simp [hE, hC, hU]

theorem processOne_recurring (today : Date) (cf uf : Nat → Bool) (st : Store)
    (rt : RecurringTransaction) :
    (processOne today cf uf st rt).1.recurring =
      if materializationSucceeds today cf uf rt then
        st.recurring.map (setLastProcessed today rt.id)
      else st.recurring := by
  unfold processOne materializationSucceeds
  cases hE : shouldEmit rt today <;> cases hC : cf rt.id <;>
    cases hU : uf rt.id <;> simp [hE, hC, hU]

theorem processLoop_count (today : Date) (cf uf : Nat → Bool) :
    ∀ (todo : List RecurringTransaction) (st : Store) (count : Nat),
      (processLoop today cf uf todo st count).2 =
        count + (todo.filter (materializationSucceeds today cf uf)).length := by
  intro todo
  induction todo with
  | nil => intro st count; simp [processLoop]
  | cons rt rest ih =>
    intro st count
    rw [processLoop, ih, List.filter_cons, processOne_count]
    by_cases h : materializationSucceeds today cf uf rt = true
    · simp [h]; omega
    · simp [h]

/-- Applying the `lastProcessedDate` update for one id and then the
per-id rewrite for a set of ids is the per-id rewrite for the enlarged
set: the update does not change `id`, and a second update to the same
date is absorbed. -/
theorem setLastProcessed_absorb (today : Date) (i : Nat) (s : List Nat)
    (r : RecurringTransaction) :
    (if (setLastProcessed today i r).id ∈ s then
      { setLastProcessed today i r with lastProcessedDate := some today }
    else setLastProcessed today i r) =
      (if r.id ∈ i :: s then { r with lastProcessedDate := some today } else r) := by
  unfold setLastProcessed
  by_cases hi : r.id = i
  · simp [hi]
  · by_cases hs : r.id ∈ s <;> simp [hi, hs]

theorem processLoop_recurring (today : Date) (cf uf : Nat → Bool) :
    ∀ (todo : List RecurringTransaction) (st : Store) (count : Nat),
      (processLoop today cf uf todo st count).1.recurring =
        st.recurring.map (fun r =>
          if r.id ∈ successIds today cf uf todo then
            { r with lastProcessedDate := some today }
          else r) := by
  intro todo
  induction todo with
  | nil =>
    intro st count
    simp [processLoop, successIds]
  | cons rt rest ih =>
    intro st count
    rw [processLoop]
    rw [ih]
    rw [processOne_recurring]
    by_cases h : materializationSucceeds today cf uf rt = true
    · rw [if_pos h]
      rw [List.map_map]
      have hids : successIds today cf uf (rt :: rest) =
          rt.id :: successIds today cf uf rest := by
        simp [successIds, List.filter_cons, h]
      rw [hids]
      refine List.map_congr_left fun r _ => ?_
      exact setLastProcessed_absorb today rt.id (successIds today cf uf rest) r
    · rw [if_neg h]
      have hids : successIds today cf uf (rt :: rest) =
          successIds today cf uf rest := by
        simp [successIds, List.filter_cons, h]
      rw [hids]

theorem shouldEmit_of_not_match (rt : RecurringTransaction) (d : Date)
    (h : frequencyMatches rt d = false) : shouldEmit rt d = false := by
  unfold shouldEmit
  rw [h]
  simp only [ite_self]

theorem shouldEmit_of_guards (rt : RecurringTransaction) (d : Date)
    (hL : rt.lastProcessedDate.any (fun lp => lp == d) = false)
    (hE : rt.endDate.any (fun e => Date.blt e d) = false)
    (hS : Date.blt d rt.startDate = false) :
    shouldEmit rt d = frequencyMatches rt d := by
  unfold shouldEmit
  simp [hL, hE, hS]

theorem frequencyMatches_daily (rt : RecurringTransaction) (d : Date)
    (hf : rt.frequency = "daily") : frequencyMatches rt d = true := by
  unfold frequencyMatches
  rw [hf]
  simp

theorem frequencyMatches_weekly (rt : RecurringTransaction) (d : Date)
    (hf : rt.frequency = "weekly") :
    frequencyMatches rt d = rt.dayOfWeek.any (fun w => w == Int.ofNat d.dayOfWeek) := by
  unfold frequencyMatches
  rw [hf]
  simp

theorem frequencyMatches_monthly (rt : RecurringTransaction) (d : Date)
    (hf : rt.frequency = "monthly") :
    frequencyMatches rt d = rt.dayOfMonth.any (fun m => m == Int.ofNat d.day) := by
  unfold frequencyMatches
  rw [hf]
  simp

theorem frequencyMatches_yearly (rt : RecurringTransaction) (d : Date)
    (hf : rt.frequency = "yearly") :
    frequencyMatches rt d =
      (rt.startDate.day == d.day && rt.startDate.month == d.month) := by
  unfold frequencyMatches
  rw [hf]
  simp

/-- Failure oracle of a run in which every persistence call succeeds. -/
def noFailure : Nat → Bool := fun _ => false

/-- The end-to-end scenario definition: active, weekly on Mondays
(`dayOfWeek = 1`), `startDate = 2024-01-01`, no `endDate`, never
processed. -/
def weeklyMondayDef : RecurringTransaction :=
  { id := 1
    userId := 7
    type := "expense"
    amount := 50
    description := "gym membership"
    categoryId := 3
    frequency := "weekly"
    startDate := ⟨2024, 1, 1⟩
    endDate := none
    dayOfMonth := none
    dayOfWeek := some 1
    lastProcessedDate := none
    isActive := true
    notes := none }

/-- Store holding just the scenario definition and no transactions. -/
def scenarioStore : Store :=
  { transactions := []
    recurring := [weeklyMondayDef]
    nextTransactionId := 1 }

/-- The store after the first run of the processor on 2024-01-08: one
materialized transaction dated 2024-01-08 and the definition's
`lastProcessedDate` stamped. -/
def scenarioStoreAfter : Store :=
  { transactions :=
      [{ id := 1
         userId := 7
         type := "expense"
         amount := 50
         description := "gym membership"
         date := ⟨2024, 1, 8⟩
         categoryId := 3
         notes := none }]
    recurring := [{ weeklyMondayDef with lastProcessedDate := some ⟨2024, 1, 8⟩ }]
    nextTransactionId := 2 }

/-- C1.  Idempotence per calendar date, end to end: on 2024-01-08 (a
Monday) the processor materializes exactly one transaction dated
2024-01-08 from the scenario definition, sets its `lastProcessedDate` to
2024-01-08, and returns count 1; a second run on the same calendar date
creates nothing, changes nothing, and returns count 0. -/
theorem idempotence_per_date_end_to_end :
    processRecurringTransactions false noFailure noFailure ⟨2024, 1, 8⟩ scenarioStore =
      .ok (scenarioStoreAfter, 1)
    ∧ processRecurringTransactions false noFailure noFailure ⟨2024, 1, 8⟩ scenarioStoreAfter =
      .ok (scenarioStoreAfter, 0) := ⟨rfl, rfl⟩

/-- C2.  Failure isolation: with the listing succeeding, the processor
never rejects, whatever pattern of per-definition persistence failures
occurs, and it returns exactly the number of active definitions whose
own materialization succeeded — a failing definition costs only itself,
every remaining definition is still processed and counted. -/
theorem failure_isolation (st : Store) (cf uf : Nat → Bool) (today : Date) :
    processRecurringTransactions false cf uf today st =
      .ok ((processLoop today cf uf (st.recurring.filter (fun rt => rt.isActive)) st 0).1,
        ((st.recurring.filter (fun rt => rt.isActive)).filter
          (materializationSucceeds today cf uf)).length) := by
  unfold processRecurringTransactions
  rw [if_neg (by simp)]
  have h := processLoop_count today cf uf
    (st.recurring.filter (fun rt => rt.isActive)) st 0
  rw [show (processLoop today cf uf (st.recurring.filter (fun rt => rt.isActive)) st 0) =
    ((processLoop today cf uf (st.recurring.filter (fun rt => rt.isActive)) st 0).1,
     (processLoop today cf uf (st.recurring.filter (fun rt => rt.isActive)) st 0).2) from rfl,
    h]
  simp

/-- C8.  Full-run failure atomicity: when listing the active definitions
fails, `processRecurringTransactions` rejects as a whole and the
endpoint answers with the 500 error body, the store is exactly as
before (no transaction created, no `lastProcessedDate` touched), and no
partial count is surfaced. -/
theorem listing_failure_atomic (st : Store) (cf uf : Nat → Bool) (today : Date) :
    (processRecurringTransactions true cf uf today st).isOk = false
    ∧ processEndpoint true cf uf today st = (.serverError, st) := ⟨rfl, rfl⟩

/-- C10.  Unknown-frequency definitions never materialize: a definition
whose frequency is none of the four handled cases (e.g. the
`'quarterly'` value the schema comment mentions) falls through the
`switch`, so its evaluation is false on every run date, its processing
step leaves the whole store — its `lastProcessedDate` included —
unchanged, contributes no transaction, and is never counted. -/
theorem unknown_frequency_never_materializes (rt : RecurringTransaction)
    (st : Store) (cf uf : Nat → Bool) (today : Date)
    (h : rt.frequency ∉ (["daily", "weekly", "monthly", "yearly"] : List String)) :
    shouldEmit rt today = false
    ∧ processOne today cf uf st rt = (st, 0)
    ∧ materializationSucceeds today cf uf rt = false := by
  simp only [List.mem_cons, List.mem_singleton, not_or] at h
  obtain ⟨h1, h2, h3, h4, -⟩ := h
  have hfm : frequencyMatches rt today = false := by
    unfold frequencyMatches
    rw [if_neg h1, if_neg h2, if_neg h3, if_neg h4]
  have hse : shouldEmit rt today = false := by
    unfold shouldEmit
    rw [hfm]
    by_cases g1 : rt.lastProcessedDate.any (fun lp => lp == today) = true
    · rw [if_pos g1]
    · rw [if_neg g1]
      by_cases g2 : rt.endDate.any (fun e => Date.blt e today) = true
      · rw [if_pos g2]
      · rw [if_neg g2]
        by_cases g3 : Date.blt today rt.startDate = true
        · rw [if_pos g3]
        · rw [if_neg g3]
  refine ⟨hse, ?_, ?_⟩
  · unfold processOne
    rw [hse]
    simp
  · unfold materializationSucceeds
    rw [hse]
    simp

/-- A `'quarterly'` definition, as the schema comment allows. -/
def quarterlyDef : RecurringTransaction :=
  { weeklyMondayDef with id := 2, frequency := "quarterly" }

/-- Witness for C10: the `'quarterly'` definition concretely never
materializes on 2024-01-08. -/
theorem unknown_frequency_never_materializes_witness :
    shouldEmit quarterlyDef ⟨2024, 1, 8⟩ = false
    ∧ processOne ⟨2024, 1, 8⟩ noFailure noFailure scenarioStore quarterlyDef =
        (scenarioStore, 0)
    ∧ materializationSucceeds ⟨2024, 1, 8⟩ noFailure noFailure quarterlyDef = false :=
  unknown_frequency_never_materializes quarterlyDef scenarioStore noFailure noFailure
    ⟨2024, 1, 8⟩ (by decide)

/-- An active daily definition whose `endDate` is 2024-06-30. -/
def dailyJuneDef : RecurringTransaction :=
  { weeklyMondayDef with
    id := 3, frequency := "daily", dayOfWeek := none, endDate := some ⟨2024, 6, 30⟩ }

/-- C3.  The end-date bound is inclusive: the daily definition with
`endDate = 2024-06-30` emits on 2024-06-30 and not on 2024-07-01; in
general the evaluation is false whenever `endDate` is present and
strictly before the target date, and when the idempotence and start-date
guards pass the evaluation equals the frequency rule gated only on
`endDate < targetDate` — so the end-date check rejects exactly then. -/
theorem end_date_boundary_inclusive :
    (emitsFor dailyJuneDef ⟨2024, 6, 30⟩ = true
      ∧ emitsFor dailyJuneDef ⟨2024, 7, 1⟩ = false)
    ∧ (∀ (rt : RecurringTransaction) (d : Date),
        rt.endDate.any (fun e => Date.blt e d) = true → shouldEmit rt d = false)
    ∧ (∀ (rt : RecurringTransaction) (d : Date),
        rt.lastProcessedDate.any (fun lp => lp == d) = false →
        Date.blt d rt.startDate = false →
        shouldEmit rt d =
          (!(rt.endDate.any (fun e => Date.blt e d)) && frequencyMatches rt d)) := by
  refine ⟨⟨by decide, by decide⟩, ?_, ?_⟩
  · intro rt d h
    unfold shouldEmit
    simp [h]
  · intro rt d hL hS
    unfold shouldEmit
    simp only [hL, hS, Bool.false_eq_true, if_false]
    cases hE : rt.endDate.any (fun e => Date.blt e d) <;> simp [hE]

/-- Witness for C3: the general end-date rejection applied to the
concrete daily definition on 2024-07-01. -/
theorem end_date_boundary_inclusive_witness :
    shouldEmit dailyJuneDef ⟨2024, 7, 1⟩ = false :=
  end_date_boundary_inclusive.2.1 dailyJuneDef ⟨2024, 7, 1⟩ (by decide)

/-- C4.  Monthly is strict day-of-month equality with no rollover: a
monthly definition anchored on day 31 never matches any structurally
valid February date, whatever the other guards do, and its processing
step then emits no transaction, changes nothing and counts nothing; and
under passing guards a monthly definition emits iff its `dayOfMonth` is
set and equals the target's day-of-month. -/
theorem monthly_no_rollover :
    (∀ (rt : RecurringTransaction) (d : Date),
        rt.frequency = "monthly" → rt.dayOfMonth = some 31 →
        d.month = 2 → d.validB = true → shouldEmit rt d = false)
    ∧ (∀ (rt : RecurringTransaction) (d : Date) (st : Store) (cf uf : Nat → Bool),
        rt.frequency = "monthly" → rt.dayOfMonth = some 31 →
        d.month = 2 → d.validB = true → processOne d cf uf st rt = (st, 0))
    ∧ (∀ (rt : RecurringTransaction) (d : Date),
        rt.frequency = "monthly" →
        rt.lastProcessedDate.any (fun lp => lp == d) = false →
        rt.endDate.any (fun e => Date.blt e d) = false →
        Date.blt d rt.startDate = false →
        (shouldEmit rt d = true ↔ rt.dayOfMonth = some (Int.ofNat d.day))) := by
  have key : ∀ (rt : RecurringTransaction) (d : Date),
      rt.frequency = "monthly" → rt.dayOfMonth = some 31 →
      d.month = 2 → d.validB = true → shouldEmit rt d = false := by
    intro rt d hf h31 hm hv
    have hd : d.day ≤ 29 := by
      unfold Date.validB at hv
      simp only [Bool.and_eq_true, decide_eq_true_eq] at hv
      have h2 := hv.2
      rw [hm] at h2
      unfold daysInMonth at h2
      by_cases hLp : isLeapYear d.year = true <;> simp [hLp] at h2 <;> omega
    have hfm : frequencyMatches rt d = false := by
      rw [frequencyMatches_monthly rt d hf, h31]
      simp only [Option.any_some, beq_eq_false_iff_ne, ne_eq, Int.ofNat_eq_natCast]
      intro hc
      omega
    exact shouldEmit_of_not_match rt d hfm
  refine ⟨key, ?_, ?_⟩
  · intro rt d st cf uf hf h31 hm hv
    unfold processOne
    rw [key rt d hf h31 hm hv]
    simp
  · intro rt d hf hL hE hS
    rw [shouldEmit_of_guards rt d hL hE hS, frequencyMatches_monthly rt d hf]
    cases hdm : rt.dayOfMonth with
    | none => simp
    | some m => simp [beq_iff_eq]

/-- A monthly definition anchored on day 31. -/
def monthly31Def : RecurringTransaction :=
  { weeklyMondayDef with
    id := 5, frequency := "monthly", dayOfWeek := none, dayOfMonth := some 31 }

/-- Witness for C4: the day-31 definition does not match 2024-02-15. -/
theorem monthly_no_rollover_witness :
    shouldEmit monthly31Def ⟨2024, 2, 15⟩ = false :=
  monthly_no_rollover.1 monthly31Def ⟨2024, 2, 15⟩ rfl rfl rfl (by decide)

/-- C5.  The weekly rule matches only the configured weekday: for a
weekly definition with `dayOfWeek = 3` whose listing filter and in-loop
guards pass, the evaluation emits iff the target's weekday is Wednesday
(`3` in the `0 = Sunday .. 6 = Saturday` numbering); a weekly definition
with no `dayOfWeek` never emits. -/
theorem weekly_configured_weekday :
    (∀ (rt : RecurringTransaction) (d : Date),
        rt.frequency = "weekly" → rt.isActive = true →
        rt.lastProcessedDate.any (fun lp => lp == d) = false →
        rt.endDate.any (fun e => Date.blt e d) = false →
        Date.blt d rt.startDate = false →
        rt.dayOfWeek = some 3 →
        (emitsFor rt d = true ↔ d.dayOfWeek = 3))
    ∧ (∀ (rt : RecurringTransaction) (d : Date),
        rt.frequency = "weekly" → rt.dayOfWeek = none →
        emitsFor rt d = false) := by
  constructor
  · intro rt d hf hA hL hE hS hW
    unfold emitsFor
    rw [hA, shouldEmit_of_guards rt d hL hE hS, frequencyMatches_weekly rt d hf, hW]
    simp only [Bool.true_and, Option.any_some, beq_iff_eq, Int.ofNat_eq_natCast]
    constructor <;> intro h <;> omega
  · intro rt d hf hW
    unfold emitsFor
    rw [shouldEmit_of_not_match rt d (by rw [frequencyMatches_weekly rt d hf, hW]; rfl)]
    simp

/-- An active weekly definition anchored on Wednesday. -/
def wednesdayDef : RecurringTransaction :=
  { weeklyMondayDef with id := 6, dayOfWeek := some 3 }

/-- Witness for C5: on 2024-01-03, a Wednesday, the iff instantiates and
both sides are concretely true. -/
theorem weekly_configured_weekday_witness :
    emitsFor wednesdayDef ⟨2024, 1, 3⟩ = true ↔ Date.dayOfWeek ⟨2024, 1, 3⟩ = 3 :=
  weekly_configured_weekday.1 wednesdayDef ⟨2024, 1, 3⟩ rfl rfl (by decide) (by decide)
    (by decide) rfl

/-- An active yearly definition with `startDate = 2020-03-15`. -/
def yearlyMarchDef : RecurringTransaction :=
  { weeklyMondayDef with
    id := 7, frequency := "yearly", dayOfWeek := none, startDate := ⟨2020, 3, 15⟩ }

/-- C6.  The yearly rule matches on the month and day-of-month of
`startDate`, ignoring the year: the 2020-03-15 definition matches
2031-03-15 and not 2031-03-16; in general, under passing guards, a
yearly definition emits iff the target's day and month equal the
`startDate`'s day and month. -/
theorem yearly_month_day_ignoring_year :
    (emitsFor yearlyMarchDef ⟨2031, 3, 15⟩ = true
      ∧ emitsFor yearlyMarchDef ⟨2031, 3, 16⟩ = false)
    ∧ (∀ (rt : RecurringTransaction) (d : Date),
        rt.frequency = "yearly" → rt.isActive = true →
        rt.lastProcessedDate.any (fun lp => lp == d) = false →
        rt.endDate.any (fun e => Date.blt e d) = false →
        Date.blt d rt.startDate = false →
        (emitsFor rt d = true ↔
          (rt.startDate.day = d.day ∧ rt.startDate.month = d.month))) := by
  refine ⟨⟨by decide, by decide⟩, ?_⟩
  intro rt d hf hA hL hE hS
  unfold emitsFor
  rw [hA, shouldEmit_of_guards rt d hL hE hS, frequencyMatches_yearly rt d hf]
  simp [beq_iff_eq]

/-- Witness for C6: the iff instantiated on 2031-03-15, where both sides
hold concretely. -/
theorem yearly_month_day_ignoring_year_witness :
    emitsFor yearlyMarchDef ⟨2031, 3, 15⟩ = true ↔
      (yearlyMarchDef.startDate.day = 15 ∧ yearlyMarchDef.startDate.month = 3) :=
  yearly_month_day_ignoring_year.2 yearlyMarchDef ⟨2031, 3, 15⟩ rfl rfl (by decide)
    (by decide) (by decide)

theorem processRecurringTransactions_ok (cf uf : Nat → Bool) (today : Date)
    (st : Store) :
    processRecurringTransactions false cf uf today st =
      .ok (processLoop today cf uf (st.recurring.filter (fun rt => rt.isActive)) st 0) :=
  rfl

/-- C9.  Frame property of the processor: a run that lists successfully
rewrites at most the `lastProcessedDate` field of each stored definition
(to the run date), leaving `userId`, `type`, `amount`, `description`,
`categoryId`, `frequency`, `startDate`, `endDate`, `dayOfWeek`,
`dayOfMonth`, `isActive` and `notes` untouched; and, when the stored ids
are distinct (the serial primary key), a definition whose evaluation
does not match is left entirely unchanged. -/
theorem processor_frame (st : Store) (cf uf : Nat → Bool) (today : Date)
    (stOut : Store) (n : Nat)
    (hrun : processRecurringTransactions false cf uf today st = .ok (stOut, n)) :
    List.Forall₂ (fun a b => b = a ∨ b = { a with lastProcessedDate := some today })
      st.recurring stOut.recurring
    ∧ ((st.recurring.map (fun r => r.id)).Nodup →
        List.Forall₂ (fun a b => emitsFor a today = false → b = a)
          st.recurring stOut.recurring) := by
  rw [processRecurringTransactions_ok] at hrun
  injection hrun with hpair
  have hst : stOut.recurring = st.recurring.map (fun r =>
      if r.id ∈ successIds today cf uf (st.recurring.filter (fun rt => rt.isActive)) then
        { r with lastProcessedDate := some today }
      else r) := by
    have hfst : (processLoop today cf uf
        (st.recurring.filter (fun rt => rt.isActive)) st 0).1 = stOut := by
      rw [hpair]
    rw [← hfst]
    exact processLoop_recurring today cf uf
      (st.recurring.filter (fun rt => rt.isActive)) st 0
  constructor
  · rw [hst, List.forall₂_map_right_iff, List.forall₂_same]
    intro a _
    by_cases hmem :
        a.id ∈ successIds today cf uf (st.recurring.filter (fun rt => rt.isActive))
    · right; simp [hmem]
    · left; simp [hmem]
  · intro hnd
    rw [hst, List.forall₂_map_right_iff, List.forall₂_same]
    intro a ha hemit
    have hmem :
        a.id ∉ successIds today cf uf (st.recurring.filter (fun rt => rt.isActive)) := by
      intro hmem
      simp only [successIds, List.mem_map, List.mem_filter] at hmem
      obtain ⟨rt, ⟨⟨hrtmem, hrtact⟩, hrtsucc⟩, hrtid⟩ := hmem
      have hra : rt = a := List.inj_on_of_nodup_map hnd hrtmem ha hrtid
      rw [hra] at hrtact hrtsucc
      unfold materializationSucceeds at hrtsucc
      simp only [Bool.and_eq_true] at hrtsucc
      unfold emitsFor at hemit
      rw [hrtact, hrtsucc.1.1] at hemit
      simp at hemit
    simp [hmem]

/-- Witness for C9: the frame property instantiated on the end-to-end
scenario run. -/
theorem processor_frame_witness :
    List.Forall₂
      (fun a b => b = a ∨ b = { a with lastProcessedDate := some (⟨2024, 1, 8⟩ : Date) })
      scenarioStore.recurring scenarioStoreAfter.recurring
    ∧ ((scenarioStore.recurring.map (fun r => r.id)).Nodup →
        List.Forall₂ (fun a b => emitsFor a ⟨2024, 1, 8⟩ = false → b = a)
          scenarioStore.recurring scenarioStoreAfter.recurring) :=
  processor_frame scenarioStore noFailure noFailure ⟨2024, 1, 8⟩ scenarioStoreAfter 1 rfl

/-- A well-formed weekly create request anchored on Wednesday. -/
def weeklyPayload3 : RecurringPayload :=
  { userId := 7
    type := "expense"
    amount := 20
    description := "bus pass"
    categoryId := 3
    frequency := "weekly"
    startDate := ⟨2024, 1, 1⟩
    endDate := none
    dayOfMonth := none
    dayOfWeek := some 3
    isActive := some true
    notes := none }

/-- The row `POST /api/recurring-transactions` stores for
`weeklyPayload3`. -/
def storedWeekly3 : RecurringTransaction :=
  { id := 9
    userId := 7
    type := "expense"
    amount := 20
    description := "bus pass"
    categoryId := 3
    frequency := "weekly"
    startDate := ⟨2024, 1, 1⟩
    endDate := none
    dayOfMonth := none
    dayOfWeek := some 3
    lastProcessedDate := none
    isActive := true
    notes := none }

/-- An update body that carries no `frequency` field and an out-of-range
`dayOfWeek`. -/
def rogueUpdate : RecurringUpdate :=
  { frequency := none
    dayOfWeek := some (some 99)
    dayOfMonth := none }

/-- Counterexample to C7: the PUT route validates frequency-specific
fields only when the body carries a `frequency`; an update of a
well-formed stored weekly definition that omits `frequency` and sets
`dayOfWeek = 99` is accepted (not 400) and the merged row it stores is
weekly with `dayOfWeek = 99 ∉ 0..6` — a malformed stored state reached
through accepted requests. -/
theorem boundary_validation_counterexample :
    postRecurring 9 weeklyPayload3 = .created storedWeekly3
    ∧ wellFormedFrequency storedWeekly3 = true
    ∧ putRecurring storedWeekly3 rogueUpdate =
        some { storedWeekly3 with dayOfWeek := some 99 }
    ∧ wellFormedFrequency { storedWeekly3 with dayOfWeek := some 99 } = false :=
  ⟨rfl, rfl, rfl, rfl⟩

/-- C7 as amended.  The create endpoint does enforce the boundary
validation: a weekly create without `dayOfWeek` in `0..6` and a monthly
create without `dayOfMonth` in `1..31` are rejected with 400 before
anything is stored, an accepted monthly create stores `dayOfMonth`
present in `1..31`, and an accepted weekly create stores `dayOfWeek`
present in `1..6` — except that a requested `dayOfWeek = 0` (Sunday) is
stored as `null` by the `|| null` normalization.  Update requests are
validated only when the body carries a `frequency` field (so updates
omitting it can store malformed day fields, per the counterexample);
when the body does set `frequency` to weekly or monthly, the stored row
carries the corresponding day field in range. -/
theorem boundary_validation_amended :
    (∀ (nid : Nat) (p : RecurringPayload),
        p.frequency = "weekly" →
        (p.dayOfWeek = none ∨ ∃ w, p.dayOfWeek = some w ∧ (w < 0 ∨ 6 < w)) →
        postRecurring nid p = .badRequest)
    ∧ (∀ (nid : Nat) (p : RecurringPayload),
        p.frequency = "monthly" →
        (p.dayOfMonth = none ∨ ∃ m, p.dayOfMonth = some m ∧ (m < 1 ∨ 31 < m)) →
        postRecurring nid p = .badRequest)
    ∧ (∀ (nid : Nat) (p : RecurringPayload) (rt : RecurringTransaction),
        postRecurring nid p = .created rt →
          (rt.frequency = "monthly" →
            rt.dayOfMonth.any (fun m => decide (1 ≤ m) && decide (m ≤ 31)) = true)
          ∧ (rt.frequency = "weekly" → p.dayOfWeek ≠ some 0 →
            rt.dayOfWeek.any (fun w => decide (1 ≤ w) && decide (w ≤ 6)) = true)
          ∧ (rt.frequency = "weekly" → p.dayOfWeek = some 0 → rt.dayOfWeek = none))
    ∧ (∀ (rt rt' : RecurringTransaction) (u : RecurringUpdate),
        putRecurring rt u = some rt' →
          (u.frequency = some "weekly" →
            rt'.dayOfWeek.any (fun w => decide (0 ≤ w) && decide (w ≤ 6)) = true)
          ∧ (u.frequency = some "monthly" →
            rt'.dayOfMonth.any (fun m => decide (1 ≤ m) && decide (m ≤ 31)) = true)) := by
  refine ⟨?_, ?_, ?_, ?_⟩
  · intro nid p hf hbad
    have hv : validateFrequencyFields p.frequency p.dayOfWeek p.dayOfMonth = false := by
      unfold validateFrequencyFields
      rw [hf, if_pos rfl]
      rcases hbad with hnone | ⟨w, hw, hrange⟩
      · rw [hnone]
      · rw [hw]
        show (decide (0 ≤ w) && decide (w ≤ 6)) = false
        rcases hrange with h | h
        · have h0 : decide (0 ≤ w) = false := by simp; omega
          rw [h0, Bool.false_and]
        · have h6 : decide (w ≤ 6) = false := by simp; omega
          rw [h6, Bool.and_false]
    simp [postRecurring, hv]
  · intro nid p hf hbad
    have hv : validateFrequencyFields p.frequency p.dayOfWeek p.dayOfMonth = false := by
      unfold validateFrequencyFields
      rw [hf, if_neg (by decide), if_pos rfl]
      rcases hbad with hnone | ⟨m, hm, hrange⟩
      · rw [hnone]
      · rw [hm]
        show (decide (1 ≤ m) && decide (m ≤ 31)) = false
        rcases hrange with h | h
        · have h0 : decide (1 ≤ m) = false := by simp; omega
          rw [h0, Bool.false_and]
        · have h31 : decide (m ≤ 31) = false := by simp; omega
          rw [h31, Bool.and_false]
    simp [postRecurring, hv]
  · intro nid p rt hpost
    unfold postRecurring at hpost
    by_cases hv : validateFrequencyFields p.frequency p.dayOfWeek p.dayOfMonth = true
    · rw [if_pos hv] at hpost
      injection hpost with hrt
      refine ⟨?_, ?_, ?_⟩
      · intro hm
        rw [← hrt] at hm
        simp only [storeCreateRecurring] at hm
        unfold validateFrequencyFields at hv
        rw [hm, if_neg (by decide), if_pos rfl] at hv
        cases hdm : p.dayOfMonth with
        | none => rw [hdm] at hv; simp at hv
        | some m =>
          rw [hdm] at hv
          simp only [Bool.and_eq_true, decide_eq_true_eq] at hv
          rw [← hrt]
          simp only [storeCreateRecurring, jsOrNullInt, hdm]
          have hm0 : (m == 0) = false := by simp; omega
          simp [hm0]
          omega
      · intro hw hw0
        rw [← hrt] at hw
        simp only [storeCreateRecurring] at hw
        unfold validateFrequencyFields at hv
        rw [hw, if_pos rfl] at hv
        cases hdw : p.dayOfWeek with
        | none => rw [hdw] at hv; simp at hv
        | some w =>
          rw [hdw] at hv
          simp only [Bool.and_eq_true, decide_eq_true_eq] at hv
          have hwne : w ≠ 0 := by
            intro h0
            rw [h0] at hdw
            exact hw0 hdw
          rw [← hrt]
          simp only [storeCreateRecurring, jsOrNullInt, hdw]
          have hm0 : (w == 0) = false := by simp [hwne]
          simp [hm0]
          omega
      · intro hw hw0
        rw [← hrt]
        simp [storeCreateRecurring, jsOrNullInt, hw0]
    · rw [if_neg hv] at hpost
      exact CreateResult.noConfusion hpost
  · intro rt rt' u hput
    unfold putRecurring at hput
    by_cases hv : putValidateFrequency u = true
    · rw [if_pos hv] at hput
      injection hput with hrt
      constructor
      · intro hfw
        unfold putValidateFrequency at hv
        rw [hfw] at hv
        simp only [if_neg (by decide : ¬("weekly" : String) = ""), if_pos rfl] at hv
        cases hdw : u.dayOfWeek with
        | none => rw [hdw] at hv; simp at hv
        | some o =>
          cases o with
          | none => rw [hdw] at hv; simp at hv
          | some w =>
            rw [hdw] at hv
            rw [← hrt]
            simp only [applyRecurringUpdate, hdw, Option.getD_some]
            simpa using hv
      · intro hfm
        unfold putValidateFrequency at hv
        rw [hfm] at hv
        simp only [if_neg (by decide : ¬("monthly" : String) = ""),
          if_neg (by decide : ¬("monthly" : String) = "weekly"), if_pos rfl] at hv
        cases hdm : u.dayOfMonth with
        | none => rw [hdm] at hv; simp at hv
        | some o =>
          cases o with
          | none => rw [hdm] at hv; simp at hv
          | some m =>
            rw [hdm] at hv
            rw [← hrt]
            simp only [applyRecurringUpdate, hdm, Option.getD_some]
            simpa using hv
    · rw [if_neg hv] at hput
      exact Option.noConfusion hput

/-- Witness for the amended C7: a weekly create with `dayOfWeek = 9` is
concretely rejected with 400. -/
theorem boundary_validation_amended_witness :
    postRecurring 9 { weeklyPayload3 with dayOfWeek := some 9 } = .badRequest :=
  boundary_validation_amended.1 9 { weeklyPayload3 with dayOfWeek := some 9 } rfl
    (Or.inr ⟨9, rfl, Or.inr (by decide)⟩)

end ExpenseTracker
